import Mathlib

/-!
Verification of the coretexpylib networking layer: a shallow embedding of
`requests_manager.py` (transport-level retries), `network_manager_base.py`
(authenticated client: token refresh and HTTP-level retry policy) and
`chunk_upload_session.py` (chunked file upload), together with theorems
settling the specified behavioural claims.

HTTP requests are modelled as pure data; the network is an oracle
(`Nat → NetworkResponse` at the client layer, `Nat → TransportOutcome` at
the transport layer) indexed by how many requests have been issued so far.
Every request issued by the client is appended to an explicit trace, so
"exactly one refresh was issued", "the retried request carries token t",
and chunk ordering are all statements about that trace.
-/

/-- JSON values as far as this layer inspects them: strings (tokens, upload
ids), numbers (sizes, byte offsets) and null. -/
inductive JValue where
  | str (s : String)
  | num (n : Int)
  | null
deriving DecidableEq

/-- Modelled from the spec: `NetworkResponse` lives in `network_response.py`,
which is not among the sources; §3 of the spec describes it as
`{ statusCode, rawBody, parsedJSON, ok }` with `hasFailed()` true when the
status code is not in the success range. `content` is the raw body. -/
structure NetworkResponse where
  statusCode : Nat
  json : List (String × JValue)
  content : List Nat
deriving DecidableEq

/-- Modelled from the spec: `ok` is true when the status code is in the
success range (below 400). -/
def NetworkResponse.ok (r : NetworkResponse) : Bool :=
  r.statusCode < 400

/-- Modelled from the spec: `hasFailed()` is true when the status code is not
in the success range. -/
def NetworkResponse.hasFailed (r : NetworkResponse) : Bool :=
  !r.ok

/-- Modelled from the spec: a response is unauthorized exactly when its
status is HTTP 401. -/
def NetworkResponse.isUnauthorized (r : NetworkResponse) : Bool :=
  r.statusCode == 401

/-- Modelled from the spec: `HttpCode.internalServerError` (500), named in
`shouldRetry`; `network_response.py` is not among the sources. -/
def HttpCode.internalServerError : Nat := 500

/-- Modelled from the spec: `HttpCode.serviceUnavailable` (503). -/
def HttpCode.serviceUnavailable : Nat := 503

/-- Modelled from the spec: the `RequestType` enum from `request_type.py`
(not among the sources); the sources use `get`, `post`, `put`, `delete`. -/
inductive RequestType where
  | get
  | post
  | put
  | delete
deriving DecidableEq

/-! ## Transport layer: `RequestsManager` (`requests_manager.py`)

What the underlying `requests` session does on each attempt is an oracle
`Nat → TransportOutcome` indexed by the attempt number (which coincides with
`retryCount`, the attempt index from 0). A raised `RequestFailedError` is
the `Except.error` outcome. Each function also returns the list of attempts
actually made, so "exactly 4 attempts of the same call" is a statement about
that list. -/

/-- Outcome of one attempt of the underlying transport: either a response or
an exception raised by the transport mechanism itself. -/
inductive TransportOutcome where
  | success (r : NetworkResponse)
  | exn
deriving DecidableEq

/-- A record of one attempt made by the transport layer: which call was
issued (type and endpoint) and the attempt index. -/
structure Attempt where
  requestType : RequestType
  endpoint : String
  index : Nat
deriving DecidableEq

def RequestsManager.MAX_RETRY_COUNT : Nat := 3

/-- `RequestsManager.genericRequest`: issue the request; on an exception,
retry the same call while `retryCount < MAX_RETRY_COUNT`, then raise
`RequestFailedError` (the `Except.error` case). -/
def RequestsManager.genericRequest (env : Nat → TransportOutcome)
    (requestType : RequestType) (endpoint : String) (retryCount : Nat) :
    Except Unit NetworkResponse × List Attempt :=
  match env retryCount with
  | .success r => (.ok r, [⟨requestType, endpoint, retryCount⟩])
  | .exn =>
    if h : retryCount < RequestsManager.MAX_RETRY_COUNT then
      let rest := RequestsManager.genericRequest env requestType endpoint (retryCount + 1)
      (rest.1, ⟨requestType, endpoint, retryCount⟩ :: rest.2)
    else
      (.error (), [⟨requestType, endpoint, retryCount⟩])
termination_by RequestsManager.MAX_RETRY_COUNT - retryCount
decreasing_by
  simp only [RequestsManager.MAX_RETRY_COUNT] at *
  omega

/-- `RequestsManager.get`: same retry structure as `genericRequest`, with the
request type fixed to GET. -/
def RequestsManager.get (env : Nat → TransportOutcome)
    (endpoint : String) (retryCount : Nat) :
    Except Unit NetworkResponse × List Attempt :=
  match env retryCount with
  | .success r => (.ok r, [⟨.get, endpoint, retryCount⟩])
  | .exn =>
    if h : retryCount < RequestsManager.MAX_RETRY_COUNT then
      let rest := RequestsManager.get env endpoint (retryCount + 1)
      (rest.1, ⟨.get, endpoint, retryCount⟩ :: rest.2)
    else
      (.error (), [⟨.get, endpoint, retryCount⟩])
termination_by RequestsManager.MAX_RETRY_COUNT - retryCount
decreasing_by
  simp only [RequestsManager.MAX_RETRY_COUNT] at *
  omega

/-- `RequestsManager.post`: same retry structure as `genericRequest`, with
the request type fixed to POST. -/
def RequestsManager.post (env : Nat → TransportOutcome)
    (endpoint : String) (retryCount : Nat) :
    Except Unit NetworkResponse × List Attempt :=
  match env retryCount with
  | .success r => (.ok r, [⟨.post, endpoint, retryCount⟩])
  | .exn =>
    if h : retryCount < RequestsManager.MAX_RETRY_COUNT then
      let rest := RequestsManager.post env endpoint (retryCount + 1)
      (rest.1, ⟨.post, endpoint, retryCount⟩ :: rest.2)
    else
      (.error (), [⟨.post, endpoint, retryCount⟩])
termination_by RequestsManager.MAX_RETRY_COUNT - retryCount
decreasing_by
  simp only [RequestsManager.MAX_RETRY_COUNT] at *
  omega

/-- The transport environment in which every attempt raises an exception. -/
def allExn : Nat → TransportOutcome := fun _ => .exn

/-- C4: For every request on which the underlying transport raises an
exception on every attempt, `genericRequest`, `get` and `post` each make
exactly 4 attempts of the same call (attempt indices 0, 1, 2, 3 — no fifth
attempt) and terminate with the terminal `RequestFailedError`, which is
never recovered. -/
theorem C4_transport_exhausts_after_four_attempts
    (requestType : RequestType) (endpoint : String) :
    RequestsManager.genericRequest allExn requestType endpoint 0 =
      (.error (), [⟨requestType, endpoint, 0⟩, ⟨requestType, endpoint, 1⟩,
        ⟨requestType, endpoint, 2⟩, ⟨requestType, endpoint, 3⟩]) ∧
    RequestsManager.get allExn endpoint 0 =
      (.error (), [⟨.get, endpoint, 0⟩, ⟨.get, endpoint, 1⟩,
        ⟨.get, endpoint, 2⟩, ⟨.get, endpoint, 3⟩]) ∧
    RequestsManager.post allExn endpoint 0 =
      (.error (), [⟨.post, endpoint, 0⟩, ⟨.post, endpoint, 1⟩,
        ⟨.post, endpoint, 2⟩, ⟨.post, endpoint, 3⟩]) := by
  refine ⟨?_, ?_, ?_⟩ <;>
    simp [RequestsManager.genericRequest, RequestsManager.get,
      RequestsManager.post, allExn, RequestsManager.MAX_RETRY_COUNT]

/-! ## Authenticated client: `NetworkManagerBase` (`network_manager_base.py`)

At this layer each call to the request manager that yields a response is one
issued request; the response oracle `env : Nat → NetworkResponse` is indexed
by the number of requests issued so far, and every issued request is
appended to the client state's trace. -/

/-- The client configuration that varies per installation: the user agent
string (`NetworkManagerBase.userAgent` reads the library and Python
versions). The endpoint and header-field names below are the constants set
in `NetworkManagerBase.__init__`. -/
structure Config where
  userAgent : String
deriving DecidableEq

def loginEndpoint : String := "user/login"

def refreshEndpoint : String := "user/refresh"

def apiTokenHeaderField : String := "api-token"

def apiTokenKey : String := "token"

def refreshTokenKey : String := "refresh_token"

def NetworkManagerBase.MAX_RETRY_COUNT : Nat := 3

/-- A file attached to a multipart request: field name mapped to
(filename, byte content, mime type). -/
structure FileSpec where
  fieldName : String
  fileName : String
  contents : List Nat
  mimeType : String
deriving DecidableEq

/-- One HTTP request as issued by the client layer. -/
structure HttpRequest where
  requestType : RequestType
  endpoint : String
  headers : List (String × JValue)
  params : List (String × JValue)
  files : Option FileSpec
deriving DecidableEq

/-- The mutable state of the client: the two stored tokens
(`_apiToken` / `_refreshToken`) plus the trace of issued requests. -/
structure ClientState where
  apiToken : Option JValue
  refreshToken : Option JValue
  sent : List HttpRequest
deriving DecidableEq

/-- `headers[k] = v` on a Python dict: overwrite the entry if the key is
present, append it otherwise. -/
def setHeader (hs : List (String × JValue)) (k : String) (v : JValue) :
    List (String × JValue) :=
  if hs.any (fun p => p.1 == k) then
    hs.map (fun p => if p.1 == k then (k, v) else p)
  else
    hs ++ [(k, v)]

/-- `del headers[k]` on a Python dict. -/
def delHeader (hs : List (String × JValue)) (k : String) :
    List (String × JValue) :=
  hs.filter (fun p => !(p.1 == k))

/-- `NetworkManagerBase._requestHeader`: the fixed header fields, plus the
api-token field when an access token is stored. -/
def requestHeader (cfg : Config) (apiToken : Option JValue) :
    List (String × JValue) :=
  let base : List (String × JValue) := [
    ("Content-Type", .str "application/json"),
    ("Accept", .str "*/*"),
    ("Cache-Control", .str "no-cache"),
    ("Accept-Encoding", .str "gzip, deflate"),
    ("Content-Length", .str "0"),
    ("Connection", .str "keep-alive"),
    ("cache-control", .str "no-cache"),
    ("X-User-Agent", .str cfg.userAgent)]
  match apiToken with
  | none => base
  | some t => base ++ [(apiTokenHeaderField, t)]

/-- Issue one request: read the oracle at the current request index and
append the request to the trace. -/
def issue (env : Nat → NetworkResponse) (s : ClientState) (r : HttpRequest) :
    NetworkResponse × ClientState :=
  (env s.sent.length, { s with sent := s.sent ++ [r] })

/-- The request issued by `NetworkManagerBase.refreshToken`: POST to the
refresh endpoint, with the stored refresh token overwriting the api-token
header field when present. -/
def refreshRequest (cfg : Config) (s : ClientState) : HttpRequest :=
  { requestType := .post,
    endpoint := refreshEndpoint,
    headers :=
      match s.refreshToken with
      | none => requestHeader cfg s.apiToken
      | some rt => setHeader (requestHeader cfg s.apiToken) apiTokenHeaderField rt,
    params := [],
    files := none }

/-- `NetworkManagerBase.refreshToken`: issue the refresh request; if the
response JSON carries the api-token key, store its value as the new access
token. -/
def NetworkManagerBase.refreshToken (cfg : Config) (env : Nat → NetworkResponse)
    (s : ClientState) : NetworkResponse × ClientState :=
  let res := issue env s (refreshRequest cfg s)
  match res.1.json.lookup apiTokenKey with
  | some v => (res.1, { res.2 with apiToken := some v })
  | none => res

/-- `NetworkManagerBase.shouldRetry`: false once `retryCount` equals
`MAX_RETRY_COUNT`; on a 401 response, issue one token refresh and retry
exactly when that refresh did not fail; otherwise retry exactly on
status 500 or 503. -/
def NetworkManagerBase.shouldRetry (cfg : Config) (env : Nat → NetworkResponse)
    (retryCount : Nat) (response : NetworkResponse) (s : ClientState) :
    Bool × ClientState :=
  if retryCount = NetworkManagerBase.MAX_RETRY_COUNT then
    (false, s)
  else if response.isUnauthorized then
    let res := NetworkManagerBase.refreshToken cfg env s
    (!res.1.hasFailed, res.2)
  else
    ((response.statusCode == HttpCode.internalServerError ||
      response.statusCode == HttpCode.serviceUnavailable), s)

/-- `NetworkManagerBase.genericJSONRequest`, with a fuel argument making the
retry recursion structural; entered with `retryCount = 0` the recursion
depth never exceeds `MAX_RETRY_COUNT + 1 = 4`, so fuel 4 is exact at the
call sites. Note the source resolves `headers` once and passes the resolved
value through the retry recursion. -/
def NetworkManagerBase.genericJSONRequest (cfg : Config)
    (env : Nat → NetworkResponse) (endpoint : String)
    (requestType : RequestType)
    (parameters : Option (List (String × JValue)))
    (headers : Option (List (String × JValue))) :
    Nat → Nat → ClientState → Option (NetworkResponse × ClientState)
  | 0, _, _ => none
  | fuel + 1, retryCount, s =>
    let hs := headers.getD (requestHeader cfg s.apiToken)
    let ps := parameters.getD []
    let res := issue env s
      { requestType := requestType, endpoint := endpoint,
        headers := hs, params := ps, files := none }
    let sr := NetworkManagerBase.shouldRetry cfg env retryCount res.1 res.2
    if sr.1 then
      NetworkManagerBase.genericJSONRequest cfg env endpoint requestType
        (some ps) (some hs) fuel (retryCount + 1) sr.2
    else
      some (res.1, sr.2)

/-- `NetworkManagerBase.genericUpload`: multipart POST, recomputing headers
(with the Content-Type field removed) on every retry. -/
def NetworkManagerBase.genericUpload (cfg : Config)
    (env : Nat → NetworkResponse) (endpoint : String) (files : FileSpec)
    (parameters : Option (List (String × JValue))) :
    Nat → Nat → ClientState → Option (NetworkResponse × ClientState)
  | 0, _, _ => none
  | fuel + 1, retryCount, s =>
    let hs := delHeader (requestHeader cfg s.apiToken) "Content-Type"
    let ps := parameters.getD []
    let res := issue env s
      { requestType := .post, endpoint := endpoint,
        headers := hs, params := ps, files := some files }
    let sr := NetworkManagerBase.shouldRetry cfg env retryCount res.1 res.2
    if sr.1 then
      NetworkManagerBase.genericUpload cfg env endpoint files
        (some ps) fuel (retryCount + 1) sr.2
    else
      some (res.1, sr.2)

/-- `NetworkManagerBase.genericDelete`: a single DELETE request, with no
retry logic of its own. -/
def NetworkManagerBase.genericDelete (cfg : Config)
    (env : Nat → NetworkResponse) (endpoint : String) (s : ClientState) :
    NetworkResponse × ClientState :=
  issue env s
    { requestType := .delete, endpoint := endpoint,
      headers := requestHeader cfg s.apiToken, params := [], files := none }

/-! ## Filesystem model for `genericDownload`

Paths are lists of components; the filesystem records existing directories
and files. `pathlib` operations used by `genericDownload` are modelled
directly: `is_dir`, `exists`, `unlink`, `parent.mkdir(parents=True,
exist_ok=True)`, and `open(destination, "wb").write`. -/

abbrev FPath := List String

structure FileSystem where
  dirs : List FPath
  files : List (FPath × List Nat)
deriving DecidableEq

def FileSystem.isDir (fs : FileSystem) (p : FPath) : Bool :=
  fs.dirs.contains p

/-- `Path.exists()`: the path names an existing directory or file. -/
def FileSystem.pathTaken (fs : FileSystem) (p : FPath) : Bool :=
  fs.dirs.contains p || fs.files.any (fun q => q.1 == p)

def FileSystem.unlink (fs : FileSystem) (p : FPath) : FileSystem :=
  { fs with files := fs.files.filter (fun q => !(q.1 == p)) }

/-- The nonempty ancestors of a path, shortest first, the path itself last. -/
def ancestorsOf (p : FPath) : List FPath :=
  (List.range p.length).map (fun i => p.take (i + 1))

/-- `parent.mkdir(parents = True, exist_ok = True)`: create the directory
and all its missing ancestors. -/
def FileSystem.mkdirParents (fs : FileSystem) (parent : FPath) : FileSystem :=
  { fs with dirs := fs.dirs ++ (ancestorsOf parent).filter (fun d => !fs.dirs.contains d) }

/-- `open(p, "wb")` followed by `write(c)`: the file at `p` now holds
exactly `c`. -/
def FileSystem.writeFile (fs : FileSystem) (p : FPath) (c : List Nat) : FileSystem :=
  { fs with files := fs.files.filter (fun q => !(q.1 == p)) ++ [(p, c)] }

/-- The contents of every file entry recorded at path `p`. -/
def FileSystem.filesAt (fs : FileSystem) (p : FPath) : List (List Nat) :=
  (fs.files.filter (fun q => q.1 == p)).map (fun q => q.2)

/-- Result of `genericDownload`: either a normal return carrying the final
response, or the `RuntimeError` raised when the destination is an existing
directory. -/
inductive DlResult where
  | returned (resp : NetworkResponse) (fs : FileSystem) (s : ClientState)
  | dirError (fs : FileSystem) (s : ClientState)
deriving DecidableEq

/-- The GET request issued by `genericDownload` (parameters are sent as the
JSON object of the request). -/
def downloadRequest (cfg : Config) (apiToken : Option JValue)
    (endpoint : String) (ps : List (String × JValue)) : HttpRequest :=
  { requestType := .get, endpoint := endpoint,
    headers := requestHeader cfg apiToken, params := ps, files := none }

/-- `NetworkManagerBase.genericDownload`: GET the endpoint, retry per
`shouldRetry` (headers are recomputed on each retry), and on an ok response
validate that the destination is not a directory, unlink an existing file
at the destination, create missing parent directories, and write the
response body. -/
def NetworkManagerBase.genericDownload (cfg : Config)
    (env : Nat → NetworkResponse) (endpoint : String) (destination : FPath)
    (parameters : Option (List (String × JValue))) :
    Nat → Nat → FileSystem → ClientState → Option DlResult
  | 0, _, _, _ => none
  | fuel + 1, retryCount, fs, s =>
    let ps := parameters.getD []
    let res := issue env s (downloadRequest cfg s.apiToken endpoint ps)
    let sr := NetworkManagerBase.shouldRetry cfg env retryCount res.1 res.2
    if sr.1 then
      NetworkManagerBase.genericDownload cfg env endpoint destination
        (some ps) fuel (retryCount + 1) fs sr.2
    else if res.1.ok then
      if fs.isDir destination then
        some (.dirError fs sr.2)
      else
        let fs1 := if fs.pathTaken destination then fs.unlink destination else fs
        let fs2 := fs1.mkdirParents destination.dropLast
        let fs3 := fs2.writeFile destination res.1.content
        some (.returned res.1 fs3 sr.2)
    else
      some (.returned res.1 fs sr.2)

/-! ## Concrete fixtures used by counterexamples and witnesses -/

def cfg1 : Config := ⟨"coretexpylib;1.0.0;python;3.8.10"⟩

def resp200 : NetworkResponse := ⟨200, [], []⟩

def resp401 : NetworkResponse := ⟨401, [], []⟩

def resp500 : NetworkResponse := ⟨500, [], []⟩

/-- A successful response whose JSON carries a fresh access token. -/
def tokenResp (t : String) : NetworkResponse := ⟨200, [(apiTokenKey, .str t)], []⟩

/-- A client state holding an old access token and a refresh token. -/
def s0 : ClientState := ⟨some (.str "OLD"), some (.str "REFRESH"), []⟩

/-- Environment answering 500 to every request. -/
def env500 : Nat → NetworkResponse := fun _ => resp500

/-- Environment answering 200 with a fresh token to every request (so a
refresh, were one issued, would succeed). -/
def envTok : Nat → NetworkResponse := fun _ => tokenResp "NEW"

def dummyRequest : HttpRequest := ⟨.get, "", [], [], none⟩

/-! ## C2: `shouldRetry` at the retry bound -/

/-- C2 counterexample: the claim says `shouldRetry` returns false for every
`retryCount ≥ 3`, but the source compares `retryCount == 3` exactly, so at
`retryCount = 4` a 500 response still yields true. -/
theorem C2_counterexample_retryCount_four :
    4 ≥ 3 ∧
    NetworkManagerBase.shouldRetry cfg1 envTok 4 resp500 s0 = (true, s0) := by
  constructor
  · decide
  · decide

/-- C2 (amended): at `retryCount = 3` — the bound actually tested by the
source, and the only value ≥ 3 reachable from the entry point
`retryCount = 0` — `shouldRetry` returns false for every response, leaving
the state untouched (in particular issuing no refresh request). -/
theorem C2_shouldRetry_at_bound_is_false (cfg : Config)
    (env : Nat → NetworkResponse) (response : NetworkResponse)
    (s : ClientState) :
    NetworkManagerBase.shouldRetry cfg env 3 response s = (false, s) := by
  simp [NetworkManagerBase.shouldRetry, NetworkManagerBase.MAX_RETRY_COUNT]

/-! ## C5: `shouldRetry` on a 401 response -/

/-- C5 counterexample: at `retryCount = 3` a 401 response triggers no
refresh at all (the state, hence the request trace, is unchanged) and
`shouldRetry` returns false even though a refresh would have succeeded —
the claim asserts exactly one refresh for every 401 response. -/
theorem C5_counterexample_401_at_bound :
    resp401.statusCode = 401 ∧
    NetworkManagerBase.shouldRetry cfg1 envTok 3 resp401 s0 = (false, s0) := by
  constructor
  · decide
  · decide

/-- C5 (amended): for every `retryCount ≠ 3` and every 401 response,
`shouldRetry` issues exactly one token-refresh request (one request, to the
refresh endpoint, is appended to the trace) and returns true precisely when
that refresh response did not fail. -/
theorem C5_shouldRetry_401_refreshes_once (cfg : Config)
    (env : Nat → NetworkResponse) (retryCount : Nat)
    (response : NetworkResponse) (s : ClientState)
    (hrc : retryCount ≠ 3) (h401 : response.statusCode = 401) :
    NetworkManagerBase.shouldRetry cfg env retryCount response s =
      (!(NetworkManagerBase.refreshToken cfg env s).1.hasFailed,
        (NetworkManagerBase.refreshToken cfg env s).2) ∧
    (NetworkManagerBase.refreshToken cfg env s).2.sent =
      s.sent ++ [refreshRequest cfg s] := by
  constructor
  · simp [NetworkManagerBase.shouldRetry, NetworkManagerBase.MAX_RETRY_COUNT,
      hrc, NetworkResponse.isUnauthorized, h401]
  · simp only [NetworkManagerBase.refreshToken, issue]
    cases h : (env s.sent.length).json.lookup apiTokenKey <;> simp

/-- Witness for C5: a concrete 401 at `retryCount = 0` with a succeeding
refresh environment. -/
theorem C5_shouldRetry_401_refreshes_once_witness :
    (0 : Nat) ≠ 3 ∧ resp401.statusCode = 401 ∧
    (NetworkManagerBase.shouldRetry cfg1 envTok 0 resp401 s0 =
      (!(NetworkManagerBase.refreshToken cfg1 envTok s0).1.hasFailed,
        (NetworkManagerBase.refreshToken cfg1 envTok s0).2) ∧
    (NetworkManagerBase.refreshToken cfg1 envTok s0).2.sent =
      s0.sent ++ [refreshRequest cfg1 s0]) :=
  ⟨by decide, by decide,
    C5_shouldRetry_401_refreshes_once cfg1 envTok 0 resp401 s0
      (by decide) (by decide)⟩

/-! ## C6: the retry policy across the generic operations -/

/-- C6 counterexample: on a 500 response — for which `shouldRetry` at
`retryCount = 0` says "retry" — `genericDelete` still issues exactly one
request and returns the failing response: it never consults `shouldRetry`
and applies no retry policy, contrary to the claim that every generic*
operation does. -/
theorem C6_counterexample_genericDelete_no_retry :
    (NetworkManagerBase.shouldRetry cfg1 env500 0 resp500 s0).1 = true ∧
    (NetworkManagerBase.genericDelete cfg1 env500 "object/delete" s0).1 = resp500 ∧
    (NetworkManagerBase.genericDelete cfg1 env500 "object/delete" s0).2.sent.length = 1 := by
  refine ⟨by decide, by decide, by decide⟩

/-- The request `genericJSONRequest` issues on every iteration: the headers
and parameters are resolved on entry and passed unchanged through the retry
recursion. -/
def jsonRetryRequest (cfg : Config) (tok : Option JValue) (endpoint : String)
    (rt : RequestType) (ps hs : Option (List (String × JValue))) : HttpRequest :=
  ⟨rt, endpoint, hs.getD (requestHeader cfg tok), ps.getD [], none⟩

/-- The request `genericUpload` issues when the stored access token is
`tok`: headers are recomputed per iteration, with Content-Type removed. -/
def uploadRetryRequest (cfg : Config) (tok : Option JValue) (endpoint : String)
    (f1 : FileSpec) (ps : Option (List (String × JValue))) : HttpRequest :=
  ⟨.post, endpoint, delHeader (requestHeader cfg tok) "Content-Type", ps.getD [], some f1⟩

/-- C6 (amended): `genericJSONRequest`, `genericUpload` and `genericDownload`
apply the same retry policy — each consults `shouldRetry(retryCount,
response)` after receiving a response, re-issues the request when it
returns true, and stops once `retryCount = 3`: against an all-500
environment each issues exactly 4 requests (the original plus 3 retries)
and returns the last 500 response. `genericDelete` applies no retry policy:
it issues exactly one request. -/
theorem C6_retry_policy_of_generic_operations (cfg : Config)
    (endpoint : String) (rt : RequestType)
    (ps hs : Option (List (String × JValue))) (f1 : FileSpec)
    (dest : FPath) (fs : FileSystem) (s : ClientState) :
    NetworkManagerBase.genericJSONRequest cfg env500 endpoint rt ps hs 4 0 s =
      some (resp500, { s with
        sent := s.sent ++ List.replicate 4 (jsonRetryRequest cfg s.apiToken endpoint rt ps hs) }) ∧
    NetworkManagerBase.genericUpload cfg env500 endpoint f1 ps 4 0 s =
      some (resp500, { s with
        sent := s.sent ++ List.replicate 4 (uploadRetryRequest cfg s.apiToken endpoint f1 ps) }) ∧
    NetworkManagerBase.genericDownload cfg env500 endpoint dest ps 4 0 fs s =
      some (.returned resp500 fs { s with
        sent := s.sent ++ List.replicate 4 (downloadRequest cfg s.apiToken endpoint (ps.getD [])) }) ∧
    (NetworkManagerBase.genericDelete cfg env500 endpoint s).2.sent =
      s.sent ++ [⟨.delete, endpoint, requestHeader cfg s.apiToken, [], none⟩] := by
  refine ⟨?_, ?_, ?_, ?_⟩ <;>
    simp [NetworkManagerBase.genericJSONRequest, NetworkManagerBase.genericUpload,
      NetworkManagerBase.genericDownload, NetworkManagerBase.genericDelete,
      NetworkManagerBase.shouldRetry, NetworkManagerBase.MAX_RETRY_COUNT,
      issue, env500, resp500, NetworkResponse.isUnauthorized, NetworkResponse.ok,
      HttpCode.internalServerError, HttpCode.serviceUnavailable,
      jsonRetryRequest, uploadRetryRequest,
      List.replicate_succ]

/-! ## C1: the re-issued request after a successful token refresh

`genericDownload` and `genericUpload` recompute `_requestHeader()` on every
retry, so their re-issued request carries the refreshed access token. But
`genericJSONRequest` resolves `headers` once and passes the resolved value
through the retry recursion, so its re-issued request still carries the
access token captured before the refresh. -/

/-- Environment for the C1 scenario: the first request gets 401, the refresh
succeeds and returns the new token "NEW", and every later request gets
200. -/
def envC1 : Nat → NetworkResponse := fun k =>
  if k = 0 then resp401 else if k = 1 then tokenResp "NEW" else resp200

def fileSpec1 : FileSpec := ⟨"file", "data.bin", [1, 2, 3], "application/zip"⟩

/-- The C1 run of `genericJSONRequest`: default (`None`) headers, stored
access token "OLD", first response 401, refresh succeeds with "NEW". -/
def C1runJSON : Option (NetworkResponse × ClientState) :=
  NetworkManagerBase.genericJSONRequest cfg1 envC1 "model/list" .post none none 4 0 s0

/-- The same scenario through `genericUpload`. -/
def C1runUpload : Option (NetworkResponse × ClientState) :=
  NetworkManagerBase.genericUpload cfg1 envC1 "upload/chunk" fileSpec1 none 4 0 s0

/-- C1 (bug evaluation): in the 401-then-successful-refresh scenario,
`genericJSONRequest` issues exactly three requests (original, one refresh,
one re-issue), ends with the response of the single re-issue, and stores
the new access token "NEW" — but the re-issued request (trace index 2)
still carries the OLD access token in its api-token header, contradicting
the claim that the re-issued request carries the new token. `genericUpload`
under the identical scenario does carry "NEW" on its re-issue, showing the
intended behaviour. -/
theorem C1_genericJSONRequest_reissues_with_stale_token :
    C1runJSON.map (fun p => p.1) = some resp200 ∧
    C1runJSON.map (fun p => p.2.sent.length) = some 3 ∧
    C1runJSON.map (fun p => (p.2.sent.getD 1 dummyRequest).endpoint) =
      some refreshEndpoint ∧
    C1runJSON.map (fun p => p.2.apiToken) = some (some (.str "NEW")) ∧
    C1runJSON.map
        (fun p => (p.2.sent.getD 2 dummyRequest).headers.lookup apiTokenHeaderField) =
      some (some (.str "OLD")) ∧
    C1runUpload.map
        (fun p => (p.2.sent.getD 2 dummyRequest).headers.lookup apiTokenHeaderField) =
      some (some (.str "NEW")) := by
  refine ⟨by decide, by decide, by decide, by decide, by decide, by decide⟩

/-! ## Chunked upload: `ChunkUploadSession` (`chunk_upload_session.py`)

The file to upload is its byte content (`List Nat`); `fileSize` is recorded
at construction time as the length of that content, matching
`filePath.lstat().st_size`. The session issues its requests through the
embedded `genericJSONRequest` / `genericUpload`, entered at
`retryCount = 0` with their exact fuel 4. -/

def MAX_CHUNK_SIZE : Nat := 128 * 1024 * 1024

structure ChunkUploadSession where
  chunkSize : Nat
  fileName : String
  fileBytes : List Nat
  fileSize : Nat
  mimeType : String
deriving DecidableEq

/-- `ChunkUploadSession.__init__` with an explicit mime type: validates
`chunkSize` (a Python int, hence `Int` here) and records the file size. The
`Except.error` case is the raised `ValueError`. -/
def ChunkUploadSession.init (chunkSize : Int) (fileName : String)
    (fileBytes : List Nat) (mimeType : String) :
    Except Unit ChunkUploadSession :=
  if chunkSize ≤ 0 ∨ chunkSize > (MAX_CHUNK_SIZE : Int) then
    .error ()
  else
    .ok { chunkSize := chunkSize.toNat, fileName := fileName,
          fileBytes := fileBytes, fileSize := fileBytes.length,
          mimeType := mimeType }

/-- `_loadChunk`: seek to `start` and read `chunkSize` bytes (fewer when the
file ends earlier). -/
def loadChunk (fileBytes : List Nat) (start chunkSize : Nat) : List Nat :=
  (fileBytes.drop start).take chunkSize

/-- The chunk count computed by `run`:
`fileSize // chunkSize`, plus one when the division has a remainder. -/
def chunkCount (fileSize chunkSize : Nat) : Nat :=
  fileSize / chunkSize + (if fileSize % chunkSize ≠ 0 then 1 else 0)

/-- The byte ranges of the chunks as computed by `run`'s loop:
chunk `i` covers `[i * chunkSize, min (i * chunkSize + chunkSize) fileSize)`. -/
def chunkRanges (fileSize chunkSize : Nat) : List (Nat × Nat) :=
  (List.range (chunkCount fileSize chunkSize)).map
    (fun i => (i * chunkSize, min (i * chunkSize + chunkSize) fileSize))

/-- Errors `run` can raise: `NetworkRequestError` on a failed start or chunk
request, `ValueError` on a non-string upload id. -/
inductive UploadError where
  | networkRequestError
  | valueError
deriving DecidableEq

/-- The request issued by `ChunkUploadSession.__start`. -/
def startRequest (cfg : Config) (tok : Option JValue) (size : Nat) : HttpRequest :=
  { requestType := .post, endpoint := "upload/start",
    headers := requestHeader cfg tok,
    params := [("size", .num (size : Int))], files := none }

/-- `ChunkUploadSession.__start`: POST the file size to `upload/start`; fail
on a failed response; require a string `id` in the response JSON. -/
def ChunkUploadSession.startUpload (cfg : Config) (env : Nat → NetworkResponse)
    (sess : ChunkUploadSession) (s : ClientState) :
    Option (Except UploadError (String × ClientState)) :=
  match NetworkManagerBase.genericJSONRequest cfg env "upload/start" .post
      (some [("size", .num (sess.fileSize : Int))]) none 4 0 s with
  | none => none
  | some (resp, s1) =>
    if resp.hasFailed then some (.error .networkRequestError)
    else
      match resp.json.lookup "id" with
      | some (.str uploadId) => some (.ok (uploadId, s1))
      | _ => some (.error .valueError)

/-- The request issued by `ChunkUploadSession.__uploadChunk` for the chunk
with half-open range `r`: a multipart POST to `upload/chunk` carrying the
loaded chunk bytes and the inclusive byte range `[r.1, r.2 - 1]`. -/
def chunkRequest (cfg : Config) (tok : Option JValue)
    (sess : ChunkUploadSession) (uploadId : String) (r : Nat × Nat) : HttpRequest :=
  { requestType := .post, endpoint := "upload/chunk",
    headers := delHeader (requestHeader cfg tok) "Content-Type",
    params := [("id", .str uploadId), ("start", .num (r.1 : Int)),
      ("end", .num ((r.2 : Int) - 1))],
    files := some ⟨"file", sess.fileName,
      loadChunk sess.fileBytes r.1 sess.chunkSize, sess.mimeType⟩ }

/-- `ChunkUploadSession.__uploadChunk`: load the chunk, POST it via
`genericUpload`, fail on a failed response. -/
def ChunkUploadSession.uploadChunk (cfg : Config) (env : Nat → NetworkResponse)
    (sess : ChunkUploadSession) (uploadId : String) (r : Nat × Nat)
    (s : ClientState) : Option (Except UploadError ClientState) :=
  let chunk := loadChunk sess.fileBytes r.1 sess.chunkSize
  let f : FileSpec := ⟨"file", sess.fileName, chunk, sess.mimeType⟩
  match NetworkManagerBase.genericUpload cfg env "upload/chunk" f
      (some [("id", .str uploadId), ("start", .num (r.1 : Int)),
        ("end", .num ((r.2 : Int) - 1))]) 4 0 s with
  | none => none
  | some (resp, s1) =>
    if resp.hasFailed then some (.error .networkRequestError)
    else some (.ok s1)

/-- The chunk loop of `run`: upload each range in order, stopping at the
first failure. -/
def ChunkUploadSession.uploadLoop (cfg : Config) (env : Nat → NetworkResponse)
    (sess : ChunkUploadSession) (uploadId : String) :
    List (Nat × Nat) → ClientState → Option (Except UploadError ClientState)
  | [], s => some (.ok s)
  | r :: rest, s =>
    match ChunkUploadSession.uploadChunk cfg env sess uploadId r s with
    | none => none
    | some (.error e) => some (.error e)
    | some (.ok s1) => ChunkUploadSession.uploadLoop cfg env sess uploadId rest s1

/-- `ChunkUploadSession.run`: start the session, upload every chunk range in
increasing offset order, and return the upload id. -/
def ChunkUploadSession.run (cfg : Config) (env : Nat → NetworkResponse)
    (sess : ChunkUploadSession) (s : ClientState) :
    Option (Except UploadError (String × ClientState)) :=
  match ChunkUploadSession.startUpload cfg env sess s with
  | none => none
  | some (.error e) => some (.error e)
  | some (.ok (uploadId, s1)) =>
    match ChunkUploadSession.uploadLoop cfg env sess uploadId
        (chunkRanges sess.fileSize sess.chunkSize) s1 with
    | none => none
    | some (.error e) => some (.error e)
    | some (.ok s2) => some (.ok (uploadId, s2))

/-! ## Arithmetic of the chunk partition -/

theorem chunkCount_eq_ceil (F C : Nat) (hC : 0 < C) :
    chunkCount F C = (F + C - 1) / C := by
  have hqr : C * (F / C) + F % C = F := Nat.div_add_mod F C
  have hrlt : F % C < C := Nat.mod_lt _ hC
  by_cases hr : F % C = 0
  · have h1 : F + C - 1 = (C - 1) + C * (F / C) := by omega
    have h2 : ((C - 1) + C * (F / C)) / C = (C - 1) / C + F / C :=
      Nat.add_mul_div_left _ _ hC
    have h3 : (C - 1) / C = 0 := Nat.div_eq_of_lt (by omega)
    have hcc : chunkCount F C = F / C := by simp [chunkCount, hr]
    rw [hcc, h1, h2, h3]
    omega
  · have hca : C * (F / C + 1) = C * (F / C) + C := by ring
    have h1 : F + C - 1 = (F % C - 1) + C * (F / C + 1) := by omega
    have h2 : ((F % C - 1) + C * (F / C + 1)) / C = (F % C - 1) / C + (F / C + 1) :=
      Nat.add_mul_div_left _ _ hC
    have h3 : (F % C - 1) / C = 0 := Nat.div_eq_of_lt (by omega)
    have hcc : chunkCount F C = F / C + 1 := by simp [chunkCount, hr]
    rw [hcc, h1, h2, h3]
    omega

theorem mul_lt_of_lt_chunkCount {F C i : Nat} (hC : 0 < C)
    (hi : i < chunkCount F C) : i * C < F := by
  have hqr : C * (F / C) + F % C = F := Nat.div_add_mod F C
  by_cases hr : F % C = 0
  · rw [chunkCount, if_neg (by simpa using hr)] at hi
    have h2 : i * C < (F / C) * C :=
      Nat.mul_lt_mul_of_lt_of_le (by omega) (Nat.le_refl C) hC
    have h3 : (F / C) * C = C * (F / C) := Nat.mul_comm _ _
    omega
  · rw [chunkCount, if_pos (by simpa using hr)] at hi
    have h2 : i * C ≤ (F / C) * C := Nat.mul_le_mul_right C (by omega)
    have h3 : (F / C) * C = C * (F / C) := Nat.mul_comm _ _
    omega

theorem mul_le_of_lt_chunkCount {F C j : Nat}
    (hj : j < chunkCount F C) : j * C ≤ F := by
  have hqr : C * (F / C) + F % C = F := Nat.div_add_mod F C
  have h2 : j * C ≤ (F / C) * C := by
    refine Nat.mul_le_mul_right C ?_
    rw [chunkCount] at hj
    by_cases hr : F % C = 0
    · rw [if_neg (by simpa using hr)] at hj
      omega
    · rw [if_pos (by simpa using hr)] at hj
      omega
  have h3 : (F / C) * C = C * (F / C) := Nat.mul_comm _ _
  omega

theorem le_chunkCount_mul (F C : Nat) (hC : 0 < C) :
    F ≤ chunkCount F C * C := by
  have hqr : C * (F / C) + F % C = F := Nat.div_add_mod F C
  have hrlt : F % C < C := Nat.mod_lt _ hC
  by_cases hr : F % C = 0
  · have hcc : chunkCount F C = F / C := by simp [chunkCount, hr]
    rw [hcc]
    have h3 : (F / C) * C = C * (F / C) := Nat.mul_comm _ _
    omega
  · have hcc : chunkCount F C = F / C + 1 := by simp [chunkCount, hr]
    rw [hcc]
    have h3 : (F / C + 1) * C = C * (F / C) + C := by ring
    omega

/-- `coversB lo hi l` holds when the half-open ranges in `l` tile the
interval `[lo, hi)` exactly, consecutively and in order: each range starts
where the previous one ended, is nonempty, and the last one ends at `hi`.
This is the "no gaps, no overlaps, increasing order, exact coverage"
condition in executable form. -/
def coversB : Nat → Nat → List (Nat × Nat) → Bool
  | lo, hi, [] => lo == hi
  | lo, hi, r :: rest => (r.1 == lo) && (lo < r.2) && coversB r.2 hi rest

theorem coversB_range' {C : Nat} (F : Nat) (hC : 0 < C) :
    ∀ (m j : Nat), F ≤ (j + m) * C → (∀ i, i < m → (j + i) * C < F) →
      j * C ≤ F →
      coversB (j * C) F ((List.range' j m).map
        (fun i => (i * C, min (i * C + C) F))) = true := by
  intro m
  induction m with
  | zero =>
    intro j h1 _ h3
    simp only [List.range', List.map_nil, coversB]
    simp only [Nat.add_zero] at h1
    exact Nat.beq_eq_true_eq _ _ |>.mpr (by omega)
  | succ m ih =>
    intro j h1 h2 h3
    have hj0 : j * C < F := by
      have h := h2 0 (by omega)
      simpa using h
    simp only [List.range', List.map_cons, coversB, Bool.and_eq_true,
      beq_iff_eq, decide_eq_true_eq]
    refine ⟨⟨trivial, by omega⟩, ?_⟩
    cases m with
    | zero =>
      have h1' : F ≤ (j + 1) * C := by simpa using h1
      have hd : (j + 1) * C = j * C + C := by ring
      have hmin : min (j * C + C) F = F := by omega
      simp only [List.range', List.map_nil, coversB, hmin]
      exact Nat.beq_eq_true_eq _ _ |>.mpr rfl
    | succ m' =>
      have hj1 : (j + 1) * C < F := by
        have h := h2 1 (by omega)
        simpa using h
      have hd : (j + 1) * C = j * C + C := by ring
      have hmin : min (j * C + C) F = (j + 1) * C := by omega
      rw [hmin]
      refine ih (j + 1) ?_ ?_ (by omega)
      · have heq : j + 1 + (m' + 1) = j + (m' + 1 + 1) := by omega
        rw [heq]
        exact h1
      · intro i hi
        have h := h2 (i + 1) (by omega)
        have heq : j + (i + 1) = j + 1 + i := by omega
        rw [heq] at h
        exact h

theorem coversB_chunkRanges (F C : Nat) (hC : 0 < C) :
    coversB 0 F (chunkRanges F C) = true := by
  have h := coversB_range' (C := C) F hC (chunkCount F C) 0
    (by simpa using le_chunkCount_mul F C hC)
    (by intro i hi; simpa using mul_lt_of_lt_chunkCount hC hi)
    (by omega)
  simpa [chunkRanges, List.range_eq_range'] using h

theorem chunkRanges_getD {F C i : Nat} (hi : i < chunkCount F C) :
    (chunkRanges F C).getD i (0, 0) = (i * C, min (i * C + C) F) := by
  simp [chunkRanges, List.getElem?_range hi]

theorem chunkRanges_length (F C : Nat) :
    (chunkRanges F C).length = chunkCount F C := by
  simp [chunkRanges]

/-! ## Behaviour of the generic operations on successful responses -/

theorem shouldRetry_of_ok {resp : NetworkResponse}
    (h : resp.statusCode < 400) (cfg : Config) (env : Nat → NetworkResponse)
    (retryCount : Nat) (s : ClientState) :
    NetworkManagerBase.shouldRetry cfg env retryCount resp s = (false, s) := by
  unfold NetworkManagerBase.shouldRetry
  have h401 : resp.isUnauthorized = false := by
    simp only [NetworkResponse.isUnauthorized, beq_eq_false_iff_ne]
    omega
  have h500 : (resp.statusCode == HttpCode.internalServerError) = false := by
    simp only [HttpCode.internalServerError, beq_eq_false_iff_ne]
    omega
  have h503 : (resp.statusCode == HttpCode.serviceUnavailable) = false := by
    simp only [HttpCode.serviceUnavailable, beq_eq_false_iff_ne]
    omega
  by_cases hrc : retryCount = NetworkManagerBase.MAX_RETRY_COUNT
  · simp [hrc]
  · simp [hrc, h401, h500, h503]

theorem genericJSONRequest_of_ok {env : Nat → NetworkResponse}
    {s : ClientState} (h : (env s.sent.length).statusCode < 400)
    (cfg : Config) (endpoint : String) (rt : RequestType)
    (ps hs : Option (List (String × JValue))) (fuel retryCount : Nat) :
    NetworkManagerBase.genericJSONRequest cfg env endpoint rt ps hs
        (fuel + 1) retryCount s =
      some (env s.sent.length, { s with
        sent := s.sent ++ [jsonRetryRequest cfg s.apiToken endpoint rt ps hs] }) := by
  simp only [NetworkManagerBase.genericJSONRequest, issue]
  rw [shouldRetry_of_ok h]
  simp [jsonRetryRequest]

theorem genericUpload_of_ok {env : Nat → NetworkResponse}
    {s : ClientState} (h : (env s.sent.length).statusCode < 400)
    (cfg : Config) (endpoint : String) (f1 : FileSpec)
    (ps : Option (List (String × JValue))) (fuel retryCount : Nat) :
    NetworkManagerBase.genericUpload cfg env endpoint f1 ps
        (fuel + 1) retryCount s =
      some (env s.sent.length, { s with
        sent := s.sent ++ [uploadRetryRequest cfg s.apiToken endpoint f1 ps] }) := by
  simp only [NetworkManagerBase.genericUpload, issue]
  rw [shouldRetry_of_ok h]
  simp [uploadRetryRequest]

theorem startUpload_of_ok {env : Nat → NetworkResponse} {s : ClientState}
    {uploadId : String} (h : (env s.sent.length).statusCode < 400)
    (hid : (env s.sent.length).json.lookup "id" = some (.str uploadId))
    (cfg : Config) (sess : ChunkUploadSession) :
    ChunkUploadSession.startUpload cfg env sess s =
      some (.ok (uploadId, { s with
        sent := s.sent ++ [startRequest cfg s.apiToken sess.fileSize] })) := by
  unfold ChunkUploadSession.startUpload
  rw [genericJSONRequest_of_ok h]
  have hfail : (env s.sent.length).hasFailed = false := by
    simp only [NetworkResponse.hasFailed, NetworkResponse.ok,
      Bool.not_eq_false', decide_eq_true_eq]
    omega
  simp [hfail, hid, startRequest, jsonRetryRequest]

theorem uploadChunk_of_ok {env : Nat → NetworkResponse} {s : ClientState}
    (h : (env s.sent.length).statusCode < 400)
    (cfg : Config) (sess : ChunkUploadSession) (uploadId : String)
    (r : Nat × Nat) :
    ChunkUploadSession.uploadChunk cfg env sess uploadId r s =
      some (.ok { s with
        sent := s.sent ++ [chunkRequest cfg s.apiToken sess uploadId r] }) := by
  simp only [ChunkUploadSession.uploadChunk]
  rw [genericUpload_of_ok h]
  have hfail : (env s.sent.length).hasFailed = false := by
    simp only [NetworkResponse.hasFailed, NetworkResponse.ok,
      Bool.not_eq_false', decide_eq_true_eq]
    omega
  simp [hfail, chunkRequest, uploadRetryRequest]

theorem uploadLoop_of_ok {env : Nat → NetworkResponse}
    (henv : ∀ k, (env k).statusCode < 400)
    (cfg : Config) (sess : ChunkUploadSession) (uploadId : String) :
    ∀ (l : List (Nat × Nat)) (s : ClientState),
      ChunkUploadSession.uploadLoop cfg env sess uploadId l s =
        some (.ok { s with
          sent := s.sent ++ l.map (chunkRequest cfg s.apiToken sess uploadId) }) := by
  intro l
  induction l with
  | nil => intro s; simp [ChunkUploadSession.uploadLoop]
  | cons r rest ih =>
    intro s
    rw [ChunkUploadSession.uploadLoop, uploadChunk_of_ok (henv _)]
    simp only [ih]
    simp

theorem run_of_ok {env : Nat → NetworkResponse} {uploadId : String}
    (henv : ∀ k, (env k).statusCode < 400)
    (hid : ∀ k, (env k).json.lookup "id" = some (.str uploadId))
    (cfg : Config) (sess : ChunkUploadSession) (s : ClientState) :
    ChunkUploadSession.run cfg env sess s =
      some (.ok (uploadId, { s with
        sent := s.sent ++ startRequest cfg s.apiToken sess.fileSize ::
          (chunkRanges sess.fileSize sess.chunkSize).map
            (chunkRequest cfg s.apiToken sess uploadId) })) := by
  unfold ChunkUploadSession.run
  rw [startUpload_of_ok (henv _) (hid _)]
  simp only [uploadLoop_of_ok henv]
  simp

/-! ## C7: chunk size validation -/

/-- C7: constructing a `ChunkUploadSession` fails with a `ValueError`
exactly when `chunkSize ≤ 0` or `chunkSize > 134217728`; every chunk size
in `[1, 134217728]` is accepted — in particular 134217728 is accepted while
134217729 and 0 are rejected. -/
theorem C7_chunkSize_validation :
    (∀ (chunkSize : Int) (fileName : String) (fileBytes : List Nat)
        (mimeType : String),
      ChunkUploadSession.init chunkSize fileName fileBytes mimeType = .error () ↔
        (chunkSize ≤ 0 ∨ 134217728 < chunkSize)) ∧
    ChunkUploadSession.init 134217728 "file.bin" [] "text/plain" ≠ .error () ∧
    ChunkUploadSession.init 134217729 "file.bin" [] "text/plain" = .error () ∧
    ChunkUploadSession.init 0 "file.bin" [] "text/plain" = .error () := by
  refine ⟨?_, by norm_num [ChunkUploadSession.init, MAX_CHUNK_SIZE]; simp,
    by norm_num [ChunkUploadSession.init, MAX_CHUNK_SIZE],
    by norm_num [ChunkUploadSession.init, MAX_CHUNK_SIZE]⟩
  intro cs fn fb mt
  unfold ChunkUploadSession.init
  have hmax : (MAX_CHUNK_SIZE : Int) = 134217728 := by norm_num [MAX_CHUNK_SIZE]
  rw [hmax]
  split
  · simp_all
  · simp_all

/-! ## C3 and C9: the chunked upload runs -/

theorem chunkCount_pos {F C : Nat} (hF : 0 < F) :
    0 < chunkCount F C := by
  have hqr : C * (F / C) + F % C = F := Nat.div_add_mod F C
  by_cases hr : F % C = 0
  · have hcc : chunkCount F C = F / C := by simp [chunkCount, hr]
    rw [hcc]
    rcases Nat.eq_zero_or_pos (F / C) with h0 | h0
    · rw [h0] at hqr
      omega
    · exact h0
  · have hcc : chunkCount F C = F / C + 1 := by simp [chunkCount, hr]
    rw [hcc]
    exact Nat.succ_pos _

/-- Environment in which every request succeeds with status 200 and a JSON
body carrying the string upload id. -/
def okEnv (uploadId : String) : Nat → NetworkResponse :=
  fun _ => { statusCode := 200, json := [("id", .str uploadId)], content := [] }

/-- The full request trace of a successful `run`: what was already sent,
then the start request, then one chunk request per chunk range in order. -/
def runTrace (cfg : Config) (sess : ChunkUploadSession) (uploadId : String)
    (s : ClientState) : List HttpRequest :=
  s.sent ++ startRequest cfg s.apiToken sess.fileSize ::
    (chunkRanges sess.fileSize sess.chunkSize).map
      (chunkRequest cfg s.apiToken sess uploadId)

/-- A blank client state. -/
def sB : ClientState := ⟨none, none, []⟩

/-- C3: for every file of size `F ≥ 1` and chunk size `C ∈ [1, 134217728]`,
a successful `run` issues the start request followed by exactly one chunk
request per range of `chunkRanges F C`, in order; there are exactly
`⌈F / C⌉ = (F + C - 1) / C` ranges (at least one); the `i`-th range is
`(i * C, min (i * C + C) F)`; the ranges tile `[0, F)` exactly, with no
gaps or overlaps (`coversB`); starts are strictly increasing; and with
`C = 16 MiB`, `F = 40 MiB` the ranges are exactly
`[0, 16Mi), [16Mi, 32Mi), [32Mi, 40Mi)`. -/
theorem C3_chunk_partition (cfg : Config)
    (fileName mimeType uploadId : String) (fileBytes : List Nat) (C : Nat)
    (s : ClientState) (hF : 1 ≤ fileBytes.length) (hC1 : 1 ≤ C)
    (_hC2 : C ≤ 134217728) :
    ChunkUploadSession.run cfg (okEnv uploadId)
        ⟨C, fileName, fileBytes, fileBytes.length, mimeType⟩ s =
      some (.ok (uploadId, { s with
        sent := runTrace cfg ⟨C, fileName, fileBytes, fileBytes.length, mimeType⟩ uploadId s })) ∧
    (chunkRanges fileBytes.length C).length = (fileBytes.length + C - 1) / C ∧
    0 < (chunkRanges fileBytes.length C).length ∧
    (∀ i, i < (chunkRanges fileBytes.length C).length →
      (chunkRanges fileBytes.length C).getD i (0, 0) =
        (i * C, min (i * C + C) fileBytes.length)) ∧
    coversB 0 fileBytes.length (chunkRanges fileBytes.length C) = true ∧
    (∀ i j, i < j → j < (chunkRanges fileBytes.length C).length →
      ((chunkRanges fileBytes.length C).getD i (0, 0)).1 <
        ((chunkRanges fileBytes.length C).getD j (0, 0)).1) ∧
    chunkRanges (40 * 1024 * 1024) (16 * 1024 * 1024) =
      [(0, 16 * 1024 * 1024), (16 * 1024 * 1024, 32 * 1024 * 1024),
        (32 * 1024 * 1024, 40 * 1024 * 1024)] := by
  refine ⟨?_, ?_, ?_, ?_, ?_, ?_, ?_⟩
  · rw [@run_of_ok (okEnv uploadId) uploadId (fun k => by simp [okEnv])
      (fun k => by simp [okEnv])]
    simp [runTrace]
  · rw [chunkRanges_length]
    exact chunkCount_eq_ceil _ _ hC1
  · rw [chunkRanges_length]
    exact chunkCount_pos hF
  · intro i hi
    rw [chunkRanges_length] at hi
    exact chunkRanges_getD hi
  · exact coversB_chunkRanges _ _ hC1
  · intro i j hij hj
    rw [chunkRanges_length] at hj
    rw [chunkRanges_getD (Nat.lt_trans hij hj), chunkRanges_getD hj]
    exact Nat.mul_lt_mul_of_lt_of_le hij (Nat.le_refl C) hC1
  · decide

/-- Witness for C3: a 1-byte file with chunk size 1. -/
theorem C3_chunk_partition_witness :
    1 ≤ ([7] : List Nat).length ∧ (1 : Nat) ≤ 1 ∧ (1 : Nat) ≤ 134217728 ∧
    (ChunkUploadSession.run cfg1 (okEnv "uid")
        ⟨1, "f.bin", [7], ([7] : List Nat).length, "text/plain"⟩ sB =
      some (.ok ("uid", { sB with
        sent := runTrace cfg1 ⟨1, "f.bin", [7], ([7] : List Nat).length, "text/plain"⟩ "uid" sB })) ∧
    (chunkRanges ([7] : List Nat).length 1).length = (([7] : List Nat).length + 1 - 1) / 1 ∧
    0 < (chunkRanges ([7] : List Nat).length 1).length ∧
    (∀ i, i < (chunkRanges ([7] : List Nat).length 1).length →
      (chunkRanges ([7] : List Nat).length 1).getD i (0, 0) =
        (i * 1, min (i * 1 + 1) ([7] : List Nat).length)) ∧
    coversB 0 ([7] : List Nat).length (chunkRanges ([7] : List Nat).length 1) = true ∧
    (∀ i j, i < j → j < (chunkRanges ([7] : List Nat).length 1).length →
      ((chunkRanges ([7] : List Nat).length 1).getD i (0, 0)).1 <
        ((chunkRanges ([7] : List Nat).length 1).getD j (0, 0)).1) ∧
    chunkRanges (40 * 1024 * 1024) (16 * 1024 * 1024) =
      [(0, 16 * 1024 * 1024), (16 * 1024 * 1024, 32 * 1024 * 1024),
        (32 * 1024 * 1024, 40 * 1024 * 1024)]) :=
  ⟨by decide, by decide, by decide,
    C3_chunk_partition cfg1 "f.bin" "text/plain" "uid" [7] 1 sB
      (by decide) (by decide) (by decide)⟩

/-- C9: for every session whose recorded `fileSize` is 0, `run` still issues
the upload-start request — whose JSON parameters carry size 0 — and, when
that start call succeeds with a string id, returns that id after uploading
zero chunks: the chunk range list is empty and the trace grows by exactly
the start request. -/
theorem C9_zero_fileSize_run (cfg : Config) (env : Nat → NetworkResponse)
    (sess : ChunkUploadSession) (uploadId : String) (s : ClientState)
    (hsize : sess.fileSize = 0)
    (hok : (env s.sent.length).statusCode < 400)
    (hid : (env s.sent.length).json.lookup "id" = some (.str uploadId)) :
    chunkRanges sess.fileSize sess.chunkSize = [] ∧
    (startRequest cfg s.apiToken sess.fileSize).params = [("size", .num 0)] ∧
    ChunkUploadSession.run cfg env sess s =
      some (.ok (uploadId, { s with
        sent := s.sent ++ [startRequest cfg s.apiToken sess.fileSize] })) := by
  have hr0 : chunkRanges sess.fileSize sess.chunkSize = [] := by
    rw [hsize]
    simp [chunkRanges, chunkCount]
  refine ⟨hr0, ?_, ?_⟩
  · simp [startRequest, hsize]
  · unfold ChunkUploadSession.run
    rw [startUpload_of_ok hok hid]
    simp [hr0, ChunkUploadSession.uploadLoop]

/-- Witness for C9: an empty file with chunk size 1 against the all-ok
environment. -/
theorem C9_zero_fileSize_run_witness :
    (⟨1, "e.bin", [], 0, "text/plain"⟩ : ChunkUploadSession).fileSize = 0 ∧
    ((okEnv "uid") sB.sent.length).statusCode < 400 ∧
    ((okEnv "uid") sB.sent.length).json.lookup "id" = some (.str "uid") ∧
    (chunkRanges (⟨1, "e.bin", [], 0, "text/plain"⟩ : ChunkUploadSession).fileSize
        (⟨1, "e.bin", [], 0, "text/plain"⟩ : ChunkUploadSession).chunkSize = [] ∧
    (startRequest cfg1 sB.apiToken
        (⟨1, "e.bin", [], 0, "text/plain"⟩ : ChunkUploadSession).fileSize).params =
      [("size", .num 0)] ∧
    ChunkUploadSession.run cfg1 (okEnv "uid") ⟨1, "e.bin", [], 0, "text/plain"⟩ sB =
      some (.ok ("uid", { sB with
        sent := sB.sent ++ [startRequest cfg1 sB.apiToken
          (⟨1, "e.bin", [], 0, "text/plain"⟩ : ChunkUploadSession).fileSize] }))) :=
  ⟨by decide, by decide, by decide,
    C9_zero_fileSize_run cfg1 (okEnv "uid") ⟨1, "e.bin", [], 0, "text/plain"⟩
      "uid" sB (by decide) (by decide) (by decide)⟩

/-! ## C8 and C10: `genericDownload` and the filesystem -/

theorem filter_key_of_ne {q p : FPath} (hq : q ≠ p)
    (files1 : List (FPath × List Nat)) :
    List.filter (fun r => r.1 == q) (List.filter (fun r => !(r.1 == p)) files1) =
      List.filter (fun r => r.1 == q) files1 := by
  rw [List.filter_filter]
  refine List.filter_congr ?_
  intro a _
  by_cases h : a.1 = q
  · have hp : (a.1 == p) = false := by
      simp only [beq_eq_false_iff_ne]
      rw [h]
      exact hq
    simp only [h, hp]
    simp
    exact hq
  · simp [h]

theorem filesAt_writeFile_self (fs : FileSystem) (p : FPath) (c : List Nat) :
    (fs.writeFile p c).filesAt p = [c] := by
  simp [FileSystem.writeFile, FileSystem.filesAt, List.filter_append,
    List.filter_filter]

theorem filesAt_writeFile_ne {q p : FPath} (hq : q ≠ p) (fs : FileSystem)
    (c : List Nat) : (fs.writeFile p c).filesAt q = fs.filesAt q := by
  have hpq : (p == q) = false := by
    simp only [beq_eq_false_iff_ne]
    exact fun h => hq h.symm
  simp only [FileSystem.writeFile, FileSystem.filesAt, List.filter_append,
    filter_key_of_ne hq]
  simp [hpq]

theorem filesAt_unlink_ne {q p : FPath} (hq : q ≠ p) (fs : FileSystem) :
    (fs.unlink p).filesAt q = fs.filesAt q := by
  simp only [FileSystem.unlink, FileSystem.filesAt, filter_key_of_ne hq]

theorem mem_mkdirParents (fs : FileSystem) (parent d : FPath)
    (hd : d ∈ ancestorsOf parent) : d ∈ (fs.mkdirParents parent).dirs := by
  simp only [FileSystem.mkdirParents, List.mem_append]
  by_cases h : d ∈ fs.dirs
  · left
    exact h
  · right
    refine List.mem_filter.mpr ⟨hd, ?_⟩
    simp [h]

/-- C8: when the HTTP response is ok but the destination is an existing
directory, `genericDownload` raises the directory validation error and
performs no file write: the filesystem is returned unchanged, while the GET
request itself was issued (the trace grows by exactly that request). -/
theorem C8_download_to_directory_fails (cfg : Config)
    (env : Nat → NetworkResponse) (endpoint : String) (dest : FPath)
    (ps : Option (List (String × JValue))) (fuel retryCount : Nat)
    (fs : FileSystem) (s : ClientState)
    (hok : (env s.sent.length).statusCode < 400)
    (hdir : fs.isDir dest = true) :
    NetworkManagerBase.genericDownload cfg env endpoint dest ps
        (fuel + 1) retryCount fs s =
      some (.dirError fs { s with
        sent := s.sent ++ [downloadRequest cfg s.apiToken endpoint (ps.getD [])] }) := by
  simp only [NetworkManagerBase.genericDownload, issue]
  rw [shouldRetry_of_ok hok]
  have hokb : (env s.sent.length).ok = true := by
    simp only [NetworkResponse.ok, decide_eq_true_eq]
    omega
  simp [hokb, hdir]

/-- Witness for C8: downloading onto an existing directory `tmp/out`. -/
theorem C8_download_to_directory_fails_witness :
    ((fun _ => resp200) sB.sent.length).statusCode < 400 ∧
    FileSystem.isDir ⟨[["tmp"], ["tmp", "out"]], []⟩ ["tmp", "out"] = true ∧
    NetworkManagerBase.genericDownload cfg1 (fun _ => resp200) "file/download"
        ["tmp", "out"] none 4 0 ⟨[["tmp"], ["tmp", "out"]], []⟩ sB =
      some (.dirError ⟨[["tmp"], ["tmp", "out"]], []⟩ { sB with
        sent := sB.sent ++ [downloadRequest cfg1 sB.apiToken "file/download" []] }) :=
  ⟨by decide, by decide,
    C8_download_to_directory_fails cfg1 (fun _ => resp200) "file/download"
      ["tmp", "out"] none 3 0 ⟨[["tmp"], ["tmp", "out"]], []⟩ sB
      (by decide) (by decide)⟩

/-- C10: on an ok response with a destination that is not an existing
directory, `genericDownload` creates the missing parent directories of the
destination, removes any file previously recorded at the destination, and
writes the response body: afterwards the destination holds exactly one file
entry, whose content is exactly the response body; every ancestor of the
destination's parent is a directory; and no other path's files changed. -/
theorem C10_download_replaces_file (cfg : Config)
    (env : Nat → NetworkResponse) (endpoint : String) (dest : FPath)
    (ps : Option (List (String × JValue))) (fuel retryCount : Nat)
    (fs : FileSystem) (s : ClientState)
    (hok : (env s.sent.length).statusCode < 400)
    (hdir : fs.isDir dest = false) :
    ∃ fs3, NetworkManagerBase.genericDownload cfg env endpoint dest ps
        (fuel + 1) retryCount fs s =
      some (.returned (env s.sent.length) fs3 { s with
        sent := s.sent ++ [downloadRequest cfg s.apiToken endpoint (ps.getD [])] }) ∧
      fs3.filesAt dest = [(env s.sent.length).content] ∧
      (∀ d, d ∈ ancestorsOf dest.dropLast → d ∈ fs3.dirs) ∧
      (∀ q, q ≠ dest → fs3.filesAt q = fs.filesAt q) := by
  refine ⟨((if fs.pathTaken dest then fs.unlink dest else fs).mkdirParents
    dest.dropLast).writeFile dest (env s.sent.length).content, ?_, ?_, ?_, ?_⟩
  · simp only [NetworkManagerBase.genericDownload, issue]
    rw [shouldRetry_of_ok hok]
    have hokb : (env s.sent.length).ok = true := by
      simp only [NetworkResponse.ok, decide_eq_true_eq]
      omega
    simp [hokb, hdir]
  · exact filesAt_writeFile_self _ _ _
  · intro d hd
    have hmem := mem_mkdirParents
      (if fs.pathTaken dest then fs.unlink dest else fs) dest.dropLast d hd
    simp only [FileSystem.writeFile]
    exact hmem
  · intro q hq
    rw [filesAt_writeFile_ne hq]
    have hmk : ∀ (g : FileSystem), (g.mkdirParents dest.dropLast).filesAt q = g.filesAt q :=
      fun g => rfl
    rw [hmk]
    by_cases ht : (if fs.pathTaken dest then fs.unlink dest else fs) = fs.unlink dest
    · rw [ht, filesAt_unlink_ne hq]
    · have : (if fs.pathTaken dest then fs.unlink dest else fs) = fs := by
        by_cases htk : fs.pathTaken dest
        · exact absurd (by simp [htk]) ht
        · simp [htk]
      rw [this]

/-- Concrete response for the C10 witness: ok, body `[5, 6]`. -/
def respC10 : NetworkResponse := ⟨200, [], [5, 6]⟩

def envC10 : Nat → NetworkResponse := fun _ => respC10

/-- Concrete filesystem for the C10 witness: directory `tmp` exists, the
destination `tmp/sub/out` holds an old file, and `tmp/sub` is missing. -/
def fsC10 : FileSystem := ⟨[["tmp"]], [(["tmp", "sub", "out"], [9])]⟩

def destC10 : FPath := ["tmp", "sub", "out"]

/-- Witness for C10: replacing the old file at `tmp/sub/out`, creating the
missing `tmp/sub` directory. -/
theorem C10_download_replaces_file_witness :
    (envC10 sB.sent.length).statusCode < 400 ∧
    fsC10.isDir destC10 = false ∧
    (∃ fs3, NetworkManagerBase.genericDownload cfg1 envC10 "file/download"
        destC10 none 4 0 fsC10 sB =
      some (.returned (envC10 sB.sent.length) fs3 { sB with
        sent := sB.sent ++ [downloadRequest cfg1 sB.apiToken "file/download" []] }) ∧
      fs3.filesAt destC10 = [(envC10 sB.sent.length).content] ∧
      (∀ d, d ∈ ancestorsOf destC10.dropLast → d ∈ fs3.dirs) ∧
      (∀ q, q ≠ destC10 → fs3.filesAt q = fsC10.filesAt q)) :=
  ⟨by decide, by decide,
    C10_download_replaces_file cfg1 envC10 "file/download" destC10 none 3 0
      fsC10 sB (by decide) (by decide)⟩
